import Mathlib

/-!
Shallow embedding of `src/scraper/megaleiloes_monitor.py` (the MegaLeilões
change-detection and snapshot reconciliation engine), together with theorems
checking the natural-language specification against the code.

Modelling conventions:
* Python floats are modelled as exact rationals (`ℚ`); `None` becomes `none`.
* A Python dict field that may be *absent* (KeyError on `d[k]`) is modelled as
  `Option (Option α)`: the outer layer is key presence, the inner layer is the
  SQL null.  `d.get(k)` is `pyGet`, `d.get(k, dflt)` is `pyGetD`, and `d[k]`
  is `req` (which fails, i.e. raises, when the key is absent).
* Timestamps are seconds since the Unix epoch (`Int`); ISO-8601 strings are
  parsed by `isoToSeconds`, which accepts the fixed-width
  `YYYY-MM-DDTHH:MM:SS±HH:MM` shape produced by `datetime.isoformat` on
  offset-aware values without microseconds (a naive string makes the Python
  code raise on aware-naive subtraction, which the model reflects as `none`).
* External fallibility (the store's insert/update calls, the two load calls)
  is modelled by boolean failure oracles.
-/

namespace MegaMonitor

/-! ### Date and time helpers -/

/-- Numeric value of a decimal digit character, `none` otherwise. -/
def digitVal (c : Char) : Option Nat :=
  if c.isDigit then some (c.toNat - 48) else none

/-- Two-digit decimal number from two characters. -/
def d2 (a b : Char) : Option Nat := do
  let x ← digitVal a
  let y ← digitVal b
  pure (x * 10 + y)

/-- Four-digit decimal number from four characters. -/
def d4 (a b c d : Char) : Option Nat := do
  let x ← d2 a b
  let y ← d2 c d
  pure (x * 100 + y)

/-- Days since 1970-01-01 of a civil date (proleptic Gregorian). -/
def daysFromCivil (year : Int) (month day : Nat) : Int :=
  let y : Int := if month ≤ 2 then year - 1 else year
  let era : Int := (if 0 ≤ y then y else y - 399) / 400
  let yoe : Int := y - era * 400
  let mp : Int := ((month : Int) + 9) % 12
  let doy : Int := (153 * mp + 2) / 5 + (day : Int) - 1
  let doe : Int := yoe * 365 + yoe / 4 - yoe / 100 + doy
  era * 146097 + doe - 719468

/-- Embeds `datetime.fromisoformat` (followed by aware-datetime arithmetic) as
seconds since the epoch: parses `YYYY-MM-DDTHH:MM:SS±HH:MM` and applies the
UTC offset.  Returns `none` on any other shape, matching the code paths where
an unparsable or naive string ends in a caught exception. -/
def isoToSeconds (s : String) : Option Int :=
  match s.data with
  | [y1, y2, y3, y4, '-', mo1, mo2, '-', da1, da2, 'T',
     h1, h2, ':', mi1, mi2, ':', se1, se2, sg, oh1, oh2, ':', om1, om2] => do
    let y ← d4 y1 y2 y3 y4
    let mo ← d2 mo1 mo2
    let da ← d2 da1 da2
    let h ← d2 h1 h2
    let mi ← d2 mi1 mi2
    let se ← d2 se1 se2
    let oh ← d2 oh1 oh2
    let om ← d2 om1 om2
    let sign : Int ← if sg = '+' then some 1 else if sg = '-' then some (-1) else none
    pure (daysFromCivil (y : Int) mo da * 86400
      + (h : Int) * 3600 + (mi : Int) * 60 + (se : Int)
      - sign * ((oh : Int) * 60 + (om : Int)) * 60)
  | _ => none

/-- Left-pads a number below 100 to two digits. -/
def pad2 (n : Nat) : String :=
  if n < 10 then "0" ++ toString n else toString n

/-- Left-pads a number below 10000 to four digits. -/
def pad4 (n : Nat) : String :=
  if n < 10 then "000" ++ toString n
  else if n < 100 then "00" ++ toString n
  else if n < 1000 then "0" ++ toString n
  else toString n

/-- Day count of a month, accounting for leap years. -/
def daysInMonth (year month : Nat) : Nat :=
  if month = 2 then
    if year % 4 = 0 ∧ (year % 100 ≠ 0 ∨ year % 400 = 0) then 29 else 28
  else if month = 4 ∨ month = 6 ∨ month = 9 ∨ month = 11 then 30
  else 31

/-- Whether the first list is a leading segment of the second. -/
def startsWithChars : List Char → List Char → Bool
  | [], _ => true
  | _ :: _, [] => false
  | p :: ps, c :: cs => p = c && startsWithChars ps cs

/-- Fuel-indexed worker for `removeAllSub` (structural recursion on the fuel
so that concrete inputs reduce). -/
def removeAllSubFuel (pat : List Char) : Nat → List Char → List Char
  | _, [] => []
  | 0, l => l
  | fuel + 1, c :: rest =>
    if pat ≠ [] ∧ startsWithChars pat (c :: rest) then
      removeAllSubFuel pat fuel (rest.drop (pat.length - 1))
    else c :: removeAllSubFuel pat fuel rest

/-- Embeds Python `s.replace(pat, '')`: removes every occurrence of a
non-empty pattern, scanning left to right. -/
def removeAllSub (pat l : List Char) : List Char :=
  removeAllSubFuel pat l.length l

/-- Whitespace for the purposes of Python `str.strip()` (the characters that
occur in this data). -/
def isSpaceChar (c : Char) : Bool :=
  c = ' ' || c = '\t' || c = '\n' || c = '\r'

/-- Embeds Python `s.strip()`: drops whitespace from both ends. -/
def trimChars (l : List Char) : List Char :=
  ((l.dropWhile isSpaceChar).reverse.dropWhile isSpaceChar).reverse

/-- Embeds `convert_brazilian_datetime_to_postgres`: drops the literal `às`,
trims, parses `DD/MM/YYYY HH:MM` (with `strptime`-style flexible interior
whitespace and calendar validation), and renders the instant as ISO-8601 with
the America/Sao_Paulo offset.  The zone is modelled with its fixed present-day
offset of `-03:00`. -/
def convertBrazilianDatetimeToPostgres (raw : String) : Option String :=
  let cleaned := trimChars (removeAllSub ("às".data) raw.data)
  match cleaned with
  | da1 :: da2 :: '/' :: mo1 :: mo2 :: '/' :: y1 :: y2 :: y3 :: y4 :: rest =>
    match rest.dropWhile (fun c => c = ' ') with
    | [h1, h2, ':', mi1, mi2] => do
      let da ← d2 da1 da2
      let mo ← d2 mo1 mo2
      let y ← d4 y1 y2 y3 y4
      let h ← d2 h1 h2
      let mi ← d2 mi1 mi2
      if 1 ≤ mo ∧ mo ≤ 12 ∧ 1 ≤ da ∧ da ≤ daysInMonth y mo ∧ h ≤ 23 ∧ mi ≤ 59 then
        pure (pad4 y ++ "-" ++ pad2 mo ++ "-" ++ pad2 da ++ "T"
          ++ pad2 h ++ ":" ++ pad2 mi ++ ":00-03:00")
      else none
    | _ => none
  | _ => none

/-! ### Identity normalization -/

/-- Embeds Python `s.split('?')[0]` on the character list: the longest
question-mark-free leading run. -/
def stripQueryChars (l : List Char) : List Char :=
  l.takeWhile (fun c => c ≠ '?')

/-- Embeds Python `s.rstrip('/')`: removes every trailing slash. -/
def rstripSlashChars (l : List Char) : List Char :=
  (l.reverse.dropWhile (fun c => c = '/')).reverse

/-- The identity normalization used at both call sites of the code
(`_load_database_items` line 121 and `_parse_card` line 295):
`link.split('?')[0].rstrip('/')`. -/
def normalizeUrl (s : String) : String :=
  String.mk (rstripSlashChars (stripQueryChars s.data))

/-- Modelled from the spec's words, for comparison with `normalizeUrl`:
"strip any query string ..., strip a single trailing path separator". -/
def normalizeUrlSpecSingle (s : String) : String :=
  let q := stripQueryChars s.data
  match q.reverse with
  | '/' :: r => String.mk r.reverse
  | _ => String.mk q

/-- Embeds the link-keying of `_parse_card` lines 292-295: absolute links kept,
relative ones joined to the base URL, then normalized. -/
def parseCardLink (base_url raw : String) : String :=
  let link := if raw.startsWith "http" then raw else base_url ++ raw
  normalizeUrl link

/-! ### Data model -/

/-- A scraped listing as built by `_parse_card` (the dict literal at lines
312-322; every key is always present there). -/
structure ScrapedItem where
  link : String
  value : Option ℚ
  has_bid : Bool
  auction_round : Option Int
  auction_date : Option String
  first_round_value : Option ℚ
  first_round_date : Option String
  discount_percentage : Option ℚ
  is_active : Bool
deriving DecidableEq

/-- A stored base-table row.  `id` and `external_id` are modelled as required
(the loader dereferences `item['id']`, and rows carry `external_id`); the
remaining columns are two-layer optional: outer `none` is an absent key, inner
`none` is SQL null. -/
structure DbItem where
  id : Nat
  external_id : String
  link : Option String
  value : Option (Option ℚ)
  has_bid : Option (Option Bool)
  auction_round : Option (Option Int)
  auction_date : Option (Option String)
  is_active : Option (Option Bool)
  category : Option (Option String)
  city : Option (Option String)
  state : Option (Option String)
  auction_type : Option (Option String)
deriving DecidableEq

/-- A previously stored monitoring snapshot row, as read back from the store;
fields are two-layer optional exactly as in `DbItem`. -/
structure LastSnap where
  current_value : Option (Option ℚ)
  has_bid : Option (Option Bool)
  auction_round : Option (Option Int)
  auction_date : Option (Option String)
  is_active : Option (Option Bool)
  snapshot_at : Option (Option String)
deriving DecidableEq

/-- The snapshot record built by `_create_snapshot` (lines 524-549).
`snapshot_at` is the run's `now`. -/
structure Snapshot where
  item_id : Nat
  external_id : String
  snapshot_at : Int
  days_until_auction : Option Int
  current_value : Option ℚ
  value_change : Option ℚ
  value_change_percentage : Option ℚ
  first_round_value : Option ℚ
  discount_from_first_round : Option ℚ
  has_bid : Bool
  bid_status_changed : Bool
  auction_round : Option Int
  round_changed : Bool
  auction_date : Option String
  auction_date_changed : Bool
  is_active : Bool
  status_changed : Bool
  category : Option String
  city : Option String
  state : Option String
  auction_type : Option String
  hours_since_last_snapshot : Option ℚ
  value_velocity : Option ℚ
deriving DecidableEq

/-- The base-table update payload built by `_create_update` (lines 561-573). -/
structure BaseUpdate where
  id : Nat
  value : Option ℚ
  has_bid : Bool
  auction_round : Option Int
  auction_date : Option String
  first_round_value : Option ℚ
  first_round_date : Option String
  discount_percentage : Option ℚ
  is_active : Bool
  updated_at : Int
  last_scraped_at : Int
deriving DecidableEq

/-- The run statistics dict initialized at lines 59-70. -/
structure Stats where
  items_scraped : Nat
  items_matched : Nat
  items_new : Nat
  snapshots_created : Nat
  items_updated : Nat
  bid_changes : Nat
  value_changes : Nat
  status_changes : Nat
  pages_scraped : Nat
  errors : Nat
deriving DecidableEq

/-- All-zero statistics. -/
def initStats : Stats := ⟨0, 0, 0, 0, 0, 0, 0, 0, 0, 0⟩

/-! ### Python dict access -/

/-- Embeds `d.get(k)`: an absent key and a null value both read as `None`. -/
def pyGet (f : Option (Option α)) : Option α :=
  f.getD none

/-- Embeds `d.get(k, dflt)`: the default applies only to an absent key; a
present null reads as `None`, not as the default. -/
def pyGetD (f : Option (Option α)) (dflt : α) : Option α :=
  match f with
  | none => some dflt
  | some v => v

/-- Embeds `d[k]`: an absent key raises (KeyError), a present value — null
included — is returned. -/
def req (f : Option (Option α)) : Except Unit (Option α) :=
  match f with
  | none => Except.error ()
  | some v => Except.ok v

/-! ### Delta helpers (from `_create_snapshot`)

Each helper mirrors one guarded block of `_create_snapshot`.  Python
truthiness matters: `if old_value and new_value:` is false not only for
`None` but also for a present `0`. -/

/-- Embeds lines 481-484: `value_change = new - old` under the truthiness
guard `if old_value and new_value:`, else `None`. -/
def pyValueChange (old new : Option ℚ) : Option ℚ :=
  match old, new with
  | some o, some n => if o ≠ 0 ∧ n ≠ 0 then some (n - o) else none
  | _, _ => none

/-- Embeds lines 481-486: the percentage needs the same truthiness guard plus
`old_value > 0`. -/
def pyValueChangePct (old new : Option ℚ) : Option ℚ :=
  match old, new with
  | some o, some n => if (o ≠ 0 ∧ n ≠ 0) ∧ 0 < o then some ((n - o) / o * 100) else none
  | _, _ => none

/-- Embeds lines 489-493: discount versus the first round, guarded by
truthiness of both inputs and `first_val > 0`; not gated on the round. -/
def pyDiscountFromFirstRound (firstRound newValue : Option ℚ) : Option ℚ :=
  match firstRound, newValue with
  | some f, some n =>
    if f ≠ 0 ∧ n ≠ 0 then (if 0 < f then some ((f - n) / f * 100) else none) else none
  | _, _ => none

/-- Embeds lines 520-522: `if value_change and hours_since_last and
hours_since_last > 0:`. -/
def pyValueVelocity (vc hours : Option ℚ) : Option ℚ :=
  match vc, hours with
  | some v, some h => if v ≠ 0 ∧ h ≠ 0 ∧ 0 < h then some (v / h) else none
  | _, _ => none

/-- Embeds round-half-to-even on an exact rational, the behaviour of Python's
`round` (binary-float representation error is outside the model). -/
def roundHalfEven (q : ℚ) : ℤ :=
  let f := ⌊q⌋
  let r := q - (f : ℚ)
  if r < 1 / 2 then f
  else if 1 / 2 < r then f + 1
  else if f % 2 = 0 then f else f + 1

/-- Python `round(q, 2)` on the exact-rational model. -/
def roundTo2 (q : ℚ) : ℚ := (roundHalfEven (q * 100) : ℚ) / 100

/-- Embeds the scrape-time discount of `_extract_auction_info_from_html`
lines 404-409: same formula, but additionally gated on
`info['auction_round'] == 2`, and rounded to two decimals. -/
def scrapeDiscount (first_round_value current_value : Option ℚ)
    (auction_round : Option Int) : Option ℚ :=
  match first_round_value, current_value with
  | some f, some c =>
    if f ≠ 0 ∧ c ≠ 0 ∧ auction_round = some 2 then
      some (roundTo2 ((f - c) / f * 100))
    else none
  | _, _ => none

/-! ### Baseline resolution (lines 478, 496, 499, 502, 505)

Each baseline is `last_snap['field'] if last_snap else db_item.get('field'[,
dflt])`; the subscript raises when the key is absent from the snapshot row. -/

/-- Baseline `current_value` (line 478). -/
def baselineValue (db : DbItem) (ls : Option LastSnap) : Except Unit (Option ℚ) :=
  match ls with
  | some snap => req snap.current_value
  | none => Except.ok (pyGet db.value)

/-- Baseline `has_bid` (line 496), defaulting to `False` on an absent base key. -/
def baselineHasBid (db : DbItem) (ls : Option LastSnap) : Except Unit (Option Bool) :=
  match ls with
  | some snap => req snap.has_bid
  | none => Except.ok (pyGetD db.has_bid false)

/-- Baseline `auction_round` (line 499). -/
def baselineRound (db : DbItem) (ls : Option LastSnap) : Except Unit (Option Int) :=
  match ls with
  | some snap => req snap.auction_round
  | none => Except.ok (pyGet db.auction_round)

/-- Baseline `auction_date` (line 502). -/
def baselineAuctionDate (db : DbItem) (ls : Option LastSnap) : Except Unit (Option String) :=
  match ls with
  | some snap => req snap.auction_date
  | none => Except.ok (pyGet db.auction_date)

/-- Baseline `is_active` (line 505), defaulting to `True` on an absent base key. -/
def baselineIsActive (db : DbItem) (ls : Option LastSnap) : Except Unit (Option Bool) :=
  match ls with
  | some snap => req snap.is_active
  | none => Except.ok (pyGetD db.is_active true)

/-! ### Snapshot creation -/

/-- Embeds lines 467-475: `timedelta.days` of `auction_dt - now`, i.e. a
floor division of the second difference, `None` when the date is absent or
unparsable. -/
def daysUntilAuction (now : Int) (sc : ScrapedItem) : Option Int :=
  match sc.auction_date with
  | none => none
  | some s => (isoToSeconds s).map (fun t => Int.fdiv (t - now) 86400)

/-- Embeds lines 509-517: hours between `now` and the last snapshot's
`snapshot_at`, guarded by `if last_snap and last_snap.get('snapshot_at'):`
(string truthiness) and by the parse succeeding. -/
def hoursSinceLast (now : Int) (ls : Option LastSnap) : Option ℚ :=
  match ls with
  | none => none
  | some snap =>
    match pyGet snap.snapshot_at with
    | none => none
    | some s =>
      if s = "" then none
      else (isoToSeconds s).map (fun t => ((now - t : Int) : ℚ) / 3600)

/-- Embeds `_create_snapshot` lines 465-551 (the body inside its `try`).  An
`Except.error` is the exception the method catches at lines 553-556; the
orchestrator step turns it into an error count and a skipped snapshot. -/
def createSnapshot (now : Int) (db : DbItem) (sc : ScrapedItem)
    (lastSnap : Option LastSnap) : Except Unit Snapshot := do
  let days_until_auction := daysUntilAuction now sc
  let old_value ← baselineValue db lastSnap
  let new_value := sc.value
  let value_change := pyValueChange old_value new_value
  let value_change_percentage := pyValueChangePct old_value new_value
  let discount_from_first_round := pyDiscountFromFirstRound sc.first_round_value new_value
  let old_has_bid ← baselineHasBid db lastSnap
  let bid_status_changed := decide (some sc.has_bid ≠ old_has_bid)
  let old_round ← baselineRound db lastSnap
  let round_changed := decide (sc.auction_round ≠ old_round)
  let old_auction_date ← baselineAuctionDate db lastSnap
  let auction_date_changed := decide (sc.auction_date ≠ old_auction_date)
  let old_is_active ← baselineIsActive db lastSnap
  let status_changed := decide (some sc.is_active ≠ old_is_active)
  let hours_since_last := hoursSinceLast now lastSnap
  let value_velocity := pyValueVelocity value_change hours_since_last
  Except.ok {
    item_id := db.id
    external_id := db.external_id
    snapshot_at := now
    days_until_auction := days_until_auction
    current_value := new_value
    value_change := value_change
    value_change_percentage := value_change_percentage
    first_round_value := sc.first_round_value
    discount_from_first_round := discount_from_first_round
    has_bid := sc.has_bid
    bid_status_changed := bid_status_changed
    auction_round := sc.auction_round
    round_changed := round_changed
    auction_date := sc.auction_date
    auction_date_changed := auction_date_changed
    is_active := sc.is_active
    status_changed := status_changed
    category := pyGet db.category
    city := pyGet db.city
    state := pyGet db.state
    auction_type := pyGet db.auction_type
    hours_since_last_snapshot := hours_since_last
    value_velocity := value_velocity
  }

/-- Embeds `_create_update` lines 558-579: the base-table payload (its body
cannot raise, so the result is total). -/
def createUpdate (now : Int) (db : DbItem) (sc : ScrapedItem) : BaseUpdate :=
  { id := db.id
    value := sc.value
    has_bid := sc.has_bid
    auction_round := sc.auction_round
    auction_date := sc.auction_date
    first_round_value := sc.first_round_value
    first_round_date := sc.first_round_date
    discount_percentage := sc.discount_percentage
    is_active := sc.is_active
    updated_at := now
    last_scraped_at := now }

/-! ### Reconciliation orchestrator -/

/-- In-flight state of `_process_matches_and_snapshots`: statistics plus the
two output batches. -/
structure ProcState where
  stats : Stats
  snapshots : List Snapshot
  updates : List BaseUpdate
deriving DecidableEq

/-- Embeds the per-snapshot change counters of lines 441-446, including the
truthiness guard `snapshot.get('value_change') and abs(...) > 0`. -/
def snapshotCounters (st : Stats) (snap : Snapshot) : Stats :=
  let st := if snap.bid_status_changed then { st with bid_changes := st.bid_changes + 1 } else st
  let st :=
    if (match snap.value_change with
        | some v => decide (v ≠ 0 ∧ 0 < |v|)
        | none => false) then
      { st with value_changes := st.value_changes + 1 }
    else st
  if snap.status_changed then { st with status_changes := st.status_changes + 1 } else st

/-- Embeds one iteration of the match loop (lines 418-451): unmatched
listings only bump `items_new`; matched ones get a snapshot attempt (error
counted on failure) and always an update payload. -/
def processOne (now : Int) (dbIndex : String → Option DbItem)
    (lastSnaps : Nat → Option LastSnap) (st : ProcState) (sc : ScrapedItem) : ProcState :=
  match dbIndex sc.link with
  | none => { st with stats := { st.stats with items_new := st.stats.items_new + 1 } }
  | some db =>
    let stats1 := { st.stats with items_matched := st.stats.items_matched + 1 }
    match createSnapshot now db sc (lastSnaps db.id) with
    | Except.error _ =>
      { st with
        stats := { stats1 with errors := stats1.errors + 1 }
        updates := st.updates ++ [createUpdate now db sc] }
    | Except.ok snap =>
      { st with
        stats := snapshotCounters
          { stats1 with snapshots_created := stats1.snapshots_created + 1 } snap
        snapshots := st.snapshots ++ [snap]
        updates := st.updates ++ [createUpdate now db sc] }

/-! ### Batch persistence -/

/-- Fuel-indexed worker for `chunkList` (structural recursion on the fuel so
that concrete inputs reduce). -/
def chunkListFuel : Nat → List Snapshot → List (List Snapshot)
  | _, [] => []
  | 0, l => [l]
  | fuel + 1, x :: xs => (x :: xs).take 500 :: chunkListFuel fuel ((x :: xs).drop 500)

/-- Embeds the chunking of `_insert_snapshots_batch` (line 584-586):
`range(0, len(snapshots), 500)` slices. -/
def chunkList (l : List Snapshot) : List (List Snapshot) :=
  chunkListFuel l.length l

/-- Runs the chunk loop of `_insert_snapshots_batch` with a per-chunk failure
oracle, starting at chunk index `i`.  Returns the inserted records, the
number of insert calls issued, and whether the loop was aborted by an
exception (which the method's single `try` places outside the loop, so the
first failure ends the loop). -/
def insertChunksGo (fails : Nat → Bool) : List (List Snapshot) → Nat → List Snapshot × Nat × Bool
  | [], _ => ([], 0, false)
  | c :: cs, i =>
    if fails i then ([], 1, true)
    else
      let r := insertChunksGo fails cs (i + 1)
      (c ++ r.1, r.2.1 + 1, r.2.2)

/-- Embeds `_insert_snapshots_batch` lines 581-592: chunked insert; on an
exception the `except` block adds the FULL batch length to `errors`. -/
def insertSnapshotsBatch (fails : Nat → Bool) (snaps : List Snapshot)
    (st : Stats) : List Snapshot × Nat × Stats :=
  let r := insertChunksGo fails (chunkList snaps) 0
  (r.1, r.2.1, if r.2.2 then { st with errors := st.errors + snaps.length } else st)

/-- Embeds the update loop of `_update_base_items_batch` lines 597-606 with a
per-item failure oracle: each item's call is tried on its own; a failure adds
one to `errors`, a success adds one to `items_updated`.  Returns the final
statistics and the successfully applied updates. -/
def updateBaseItemsBatchGo (fails : Nat → Bool) :
    List BaseUpdate → Nat → Stats → Stats × List BaseUpdate
  | [], _, st => (st, [])
  | u :: us, i, st =>
    if fails i then
      updateBaseItemsBatchGo fails us (i + 1) { st with errors := st.errors + 1 }
    else
      let r := updateBaseItemsBatchGo fails us (i + 1)
        { st with items_updated := st.items_updated + 1 }
      (r.1, u :: r.2)

/-- Embeds `_update_base_items_batch` lines 594-611. -/
def updateBaseItemsBatch (fails : Nat → Bool) (ups : List BaseUpdate)
    (st : Stats) : Stats × List BaseUpdate :=
  updateBaseItemsBatchGo fails ups 0 st

/-- Outcome of a full `_process_matches_and_snapshots` pass, persistence
included. -/
structure RunResult where
  stats : Stats
  inserted : List Snapshot
  attemptedChunks : Nat
  applied : List BaseUpdate
deriving DecidableEq

/-- Embeds `_process_matches_and_snapshots` lines 413-461 end to end: the
match loop, then the guarded batched snapshot insert, then the guarded
per-item base updates. -/
def processMatchesAndSnapshots (now : Int) (dbIndex : String → Option DbItem)
    (lastSnaps : Nat → Option LastSnap) (insertFails updateFails : Nat → Bool)
    (scraped : List ScrapedItem) (st0 : Stats) : RunResult :=
  let s := scraped.foldl (processOne now dbIndex lastSnaps) ⟨st0, [], []⟩
  let r1 :=
    if s.snapshots.isEmpty then ([], 0, s.stats)
    else insertSnapshotsBatch insertFails s.snapshots s.stats
  let r2 :=
    if s.updates.isEmpty then (r1.2.2, [])
    else updateBaseItemsBatch updateFails s.updates r1.2.2
  ⟨r2.1, r1.1, r1.2.1, r2.2⟩

/-! ### Run assembly -/

/-- Embeds the lookup map built by `_load_database_items` lines 118-123:
normalized link to row, later rows overwriting earlier ones (Python dict
assignment order). -/
def loadDatabaseItems (rows : List DbItem) : String → Option DbItem :=
  fun k => rows.reverse.find? (fun it => normalizeUrl (it.link.getD "") == k)

/-- Embeds the first-seen-wins last-snapshot map of `_load_last_snapshots`
lines 147-154, over the store's response already ordered by descending
`snapshot_at`. -/
def loadLastSnapshots (rows : List (Nat × LastSnap)) : Nat → Option LastSnap :=
  fun i => (rows.find? (fun p => p.1 == i)).map (fun p => p.2)

/-- Failure oracles for the run's external store calls. -/
structure Oracles where
  loadItemsFails : Bool
  loadSnapsFails : Bool
  insertFails : Nat → Bool
  updateFails : Nat → Bool

/-- Embeds the reconciliation portion of `run` (lines 77-108): the stored-item
load (whose failure is re-raised, aborting the pass), the last-snapshot load
(whose failure is swallowed, leaving the map empty), then processing and
persistence over the already-scraped listings; the scrape step itself is an
external collaborator and is passed in as data. -/
def runMonitor (o : Oracles) (now : Int) (rows : List DbItem)
    (snapRows : List (Nat × LastSnap)) (scraped : List ScrapedItem) :
    Except Unit Stats :=
  if o.loadItemsFails then Except.error ()
  else
    let dbIndex := loadDatabaseItems rows
    let lastSnaps := if o.loadSnapsFails then fun _ => none else loadLastSnapshots snapRows
    let st0 := { initStats with items_scraped := scraped.length }
    Except.ok (processMatchesAndSnapshots now dbIndex lastSnaps
      o.insertFails o.updateFails scraped st0).stats

/-! ### Shared lemmas about `createSnapshot` -/

/-- The snapshot record `_create_snapshot` builds once its five baseline
reads have yielded `ov`, `ob`, `orr`, `od`, `oa`. -/
def snapshotOf (now : Int) (db : DbItem) (sc : ScrapedItem) (ls : Option LastSnap)
    (ov : Option ℚ) (ob : Option Bool) (orr : Option Int) (od : Option String)
    (oa : Option Bool) : Snapshot :=
  { item_id := db.id
    external_id := db.external_id
    snapshot_at := now
    days_until_auction := daysUntilAuction now sc
    current_value := sc.value
    value_change := pyValueChange ov sc.value
    value_change_percentage := pyValueChangePct ov sc.value
    first_round_value := sc.first_round_value
    discount_from_first_round := pyDiscountFromFirstRound sc.first_round_value sc.value
    has_bid := sc.has_bid
    bid_status_changed := decide (some sc.has_bid ≠ ob)
    auction_round := sc.auction_round
    round_changed := decide (sc.auction_round ≠ orr)
    auction_date := sc.auction_date
    auction_date_changed := decide (sc.auction_date ≠ od)
    is_active := sc.is_active
    status_changed := decide (some sc.is_active ≠ oa)
    category := pyGet db.category
    city := pyGet db.city
    state := pyGet db.state
    auction_type := pyGet db.auction_type
    hours_since_last_snapshot := hoursSinceLast now ls
    value_velocity := pyValueVelocity (pyValueChange ov sc.value) (hoursSinceLast now ls) }

theorem createSnapshot_eq_ok (now : Int) (db : DbItem) (sc : ScrapedItem)
    (ls : Option LastSnap) (ov : Option ℚ) (ob : Option Bool) (orr : Option Int)
    (od : Option String) (oa : Option Bool)
    (hv : baselineValue db ls = Except.ok ov)
    (hb : baselineHasBid db ls = Except.ok ob)
    (hr : baselineRound db ls = Except.ok orr)
    (hd : baselineAuctionDate db ls = Except.ok od)
    (ha : baselineIsActive db ls = Except.ok oa) :
    createSnapshot now db sc ls = Except.ok (snapshotOf now db sc ls ov ob orr od oa) := by
  simp only [createSnapshot, hv, hb, hr, hd, ha, bind, Except.bind, snapshotOf]

theorem createSnapshot_ok_inv {now : Int} {db : DbItem} {sc : ScrapedItem}
    {ls : Option LastSnap} {snap : Snapshot}
    (h : createSnapshot now db sc ls = Except.ok snap) :
    ∃ ov ob orr od oa,
      baselineValue db ls = Except.ok ov ∧
      baselineHasBid db ls = Except.ok ob ∧
      baselineRound db ls = Except.ok orr ∧
      baselineAuctionDate db ls = Except.ok od ∧
      baselineIsActive db ls = Except.ok oa ∧
      snap = snapshotOf now db sc ls ov ob orr od oa := by
  rcases hv : baselineValue db ls with e | ov
  · simp [createSnapshot, hv, bind, Except.bind] at h
  rcases hb : baselineHasBid db ls with e | ob
  · simp [createSnapshot, hv, hb, bind, Except.bind] at h
  rcases hr : baselineRound db ls with e | orr
  · simp [createSnapshot, hv, hb, hr, bind, Except.bind] at h
  rcases hd : baselineAuctionDate db ls with e | od
  · simp [createSnapshot, hv, hb, hr, hd, bind, Except.bind] at h
  rcases ha : baselineIsActive db ls with e | oa
  · simp [createSnapshot, hv, hb, hr, hd, ha, bind, Except.bind] at h
  refine ⟨ov, ob, orr, od, oa, rfl, rfl, rfl, rfl, rfl, ?_⟩
  have := createSnapshot_eq_ok now db sc ls ov ob orr od oa hv hb hr hd ha
  rw [this] at h
  exact ((Except.ok.injEq _ _).mp h).symm


/-! ### Lemmas about identity normalization -/

theorem stripQueryChars_append_q (l m : List Char) :
    stripQueryChars (l ++ '?' :: m) = stripQueryChars l := by
  induction l with
  | nil => simp [stripQueryChars]
  | cons c l ih =>
    by_cases hc : c = '?'
    · subst hc; simp [stripQueryChars]
    · simp [stripQueryChars, List.takeWhile_cons, hc] at ih ⊢
      exact ih

theorem stripQueryChars_all (l : List Char) (h : ∀ c ∈ l, c ≠ '?') :
    stripQueryChars l = l := by
  induction l with
  | nil => rfl
  | cons c l ih =>
    have hc : c ≠ '?' := h c (by simp)
    simp only [stripQueryChars, List.takeWhile_cons, hc, decide_not] at ih ⊢
    simp [hc, ih fun a ha => h a (by simp [ha])]

theorem stripQueryChars_append (l m : List Char) :
    stripQueryChars (l ++ m) =
      if ∀ c ∈ l, c ≠ '?' then l ++ stripQueryChars m else stripQueryChars l := by
  induction l with
  | nil => simp
  | cons c l ih =>
    by_cases hc : c = '?'
    · subst hc
      have hno : ¬ ∀ x ∈ ('?' :: l), x ≠ '?' := by simp
      rw [if_neg hno]
      simp [stripQueryChars]
    · have step : ∀ t, stripQueryChars (c :: t) = c :: stripQueryChars t := by
        intro t; simp [stripQueryChars, List.takeWhile_cons, hc]
      rw [List.cons_append, step, ih]
      by_cases hl : ∀ x ∈ l, x ≠ '?'
      · have hcl : ∀ x ∈ c :: l, x ≠ '?' := by
          intro x hx
          rcases List.mem_cons.mp hx with h1 | h2
          · rw [h1]; exact hc
          · exact hl x h2
        rw [if_pos hl, if_pos hcl, List.cons_append]
      · have hcl : ¬ ∀ x ∈ c :: l, x ≠ '?' := by
          intro hx; exact hl fun a ha => hx a (List.mem_cons_of_mem _ ha)
        rw [if_neg hl, if_neg hcl, step]

theorem rstripSlashChars_append_slash (l : List Char) :
    rstripSlashChars (l ++ ['/']) = rstripSlashChars l := by
  simp [rstripSlashChars, List.reverse_append, List.dropWhile_cons]

theorem normalizeUrl_append_slash_chars (l : List Char) :
    rstripSlashChars (stripQueryChars (l ++ ['/'])) =
      rstripSlashChars (stripQueryChars l) := by
  rw [stripQueryChars_append]
  by_cases h : ∀ c ∈ l, c ≠ '?'
  · have hs : stripQueryChars ['/'] = ['/'] := rfl
    rw [if_pos h, hs, stripQueryChars_all l h]
    exact rstripSlashChars_append_slash l
  · rw [if_neg h]

theorem normalizeUrl_append_query (url : String) :
    normalizeUrl (url ++ "?x=1") = normalizeUrl url := by
  unfold normalizeUrl
  rw [String.data_append]
  have h : ("?x=1" : String).data = '?' :: ("x=1" : String).data := rfl
  rw [h, stripQueryChars_append_q]

theorem normalizeUrl_append_slash (url : String) :
    normalizeUrl (url ++ "/") = normalizeUrl url := by
  unfold normalizeUrl
  rw [String.data_append]
  have h : ("/" : String).data = ['/'] := rfl
  rw [h, normalizeUrl_append_slash_chars]

theorem normalizeUrl_append_two_slashes (url : String) :
    normalizeUrl (url ++ "//") = normalizeUrl url := by
  unfold normalizeUrl
  rw [String.data_append]
  have h : ("//" : String).data = ['/'] ++ ['/'] := rfl
  rw [h, ← List.append_assoc, normalizeUrl_append_slash_chars,
    normalizeUrl_append_slash_chars]

/-! ### Shared sample data for concrete witnesses and counterexamples -/

/-- A representative stored row, all keys present. -/
def itemA : DbItem :=
  { id := 1
    external_id := "E1"
    link := some "https://m/i1"
    value := some (some 100)
    has_bid := some (some false)
    auction_round := some (some 1)
    auction_date := some (some "2025-01-15T13:00:00+00:00")
    is_active := some (some true)
    category := some (some "imoveis")
    city := some none
    state := some none
    auction_type := some none }

/-- A representative scraped listing matching `itemA` by link. -/
def scA : ScrapedItem :=
  { link := "https://m/i1"
    value := some 100
    has_bid := false
    auction_round := some 1
    auction_date := some "2025-01-15T13:00:00+00:00"
    first_round_value := none
    first_round_date := none
    discount_percentage := none
    is_active := true }

/-! ### Claim C5 -/

/-- Claim C5, counterexample: the code's normalization does NOT strip "a
single trailing path separator" — `rstrip('/')` strips them all, so on
`"https://x//"` the code yields `"https://x"` while the claimed single-strip
normalization yields `"https://x/"`. -/
theorem c5_normalize_counterexample :
    normalizeUrl "https://x//" = "https://x" ∧
    normalizeUrlSpecSingle "https://x//" = "https://x/" ∧
    normalizeUrl "https://x//" ≠ normalizeUrlSpecSingle "https://x//" := by
  refine ⟨by decide, by decide, by decide⟩

/-- Claim C5 (amended): `normalize` strips everything from the first `?`
onward, then strips ALL trailing path separators (not just one), returning
the result otherwise unchanged, so that
`normalize(url ++ "?x=1") = normalize url = normalize (url ++ "/")` (and
likewise with several trailing slashes); the identical `normalizeUrl` is
applied both when keying each scraped listing (`parseCardLink`) and when
building the stored-item lookup map (`loadDatabaseItems`). -/
theorem c5_normalize_amended :
    (∀ url : String, normalizeUrl (url ++ "?x=1") = normalizeUrl url) ∧
    (∀ url : String, normalizeUrl (url ++ "/") = normalizeUrl url) ∧
    (∀ url : String, normalizeUrl (url ++ "//") = normalizeUrl url) ∧
    (∀ base raw : String, parseCardLink base raw =
      normalizeUrl (if raw.startsWith "http" then raw else base ++ raw)) ∧
    (∀ (rows : List DbItem) (k : String) (it : DbItem),
      loadDatabaseItems rows k = some it → normalizeUrl (it.link.getD "") = k) := by
  refine ⟨normalizeUrl_append_query, normalizeUrl_append_slash,
    normalizeUrl_append_two_slashes, fun base raw => rfl, ?_⟩
  intro rows k it h
  unfold loadDatabaseItems at h
  have hp := List.find?_some h
  simp only [beq_iff_eq] at hp
  exact hp

/-- Witness for `c5_normalize_amended` at concrete inputs. -/
theorem c5_normalize_amended_witness :
    normalizeUrl ("https://m/i1" ++ "?x=1") = normalizeUrl "https://m/i1" ∧
    normalizeUrl (itemA.link.getD "") = "https://m/i1" :=
  ⟨c5_normalize_amended.1 "https://m/i1",
   c5_normalize_amended.2.2.2.2 [itemA] "https://m/i1" itemA (by decide)⟩

/-! ### Claim C2 -/

/-- A stored row whose `value` is present and zero. -/
def itemZero : DbItem := { itemA with value := some (some 0) }

/-- A scraped listing with a present, nonzero value. -/
def scVal100 : ScrapedItem := { scA with value := some 100 }

/-- Claim C2, counterexample: with a baseline `current_value` that is present
and equal to `0` and a scraped value of `100` — both non-null — the code still
produces a null `value_change`, because `if old_value and new_value:` uses
Python truthiness and a present `0` is falsy.  The claim's "null iff at least
one input is null" is therefore false. -/
theorem c2_value_change_counterexample :
    pyGet itemZero.value = some 0 ∧
    scVal100.value = some 100 ∧
    (createSnapshot 0 itemZero scVal100 none).toOption.map
      (fun s => s.value_change) = some none := by
  refine ⟨rfl, rfl, by decide⟩

/-- Claim C2 (amended): `value_change` is null iff at least one of the
baseline and scraped `current_value` is null OR EQUAL TO ZERO (Python
truthiness); when both are present and nonzero it equals
`scraped - baseline` exactly, so a zero difference between two present
nonzero values is returned as `0`, distinguished from null. -/
theorem c2_value_change_amended :
    (∀ old new : Option ℚ, pyValueChange old new = none ↔
      (old = none ∨ new = none ∨ old = some 0 ∨ new = some 0)) ∧
    (∀ o n : ℚ, o ≠ 0 → n ≠ 0 → pyValueChange (some o) (some n) = some (n - o)) ∧
    (∀ (now : Int) (db : DbItem) (sc : ScrapedItem) (ls : Option LastSnap)
      (snap : Snapshot), createSnapshot now db sc ls = Except.ok snap →
      ∃ old, baselineValue db ls = Except.ok old ∧
        snap.value_change = pyValueChange old sc.value) := by
  refine ⟨?_, ?_, ?_⟩
  · intro old new
    match old, new with
    | none, none => simp [pyValueChange]
    | none, some n => simp [pyValueChange]
    | some o, none => simp [pyValueChange]
    | some o, some n =>
      by_cases ho : o = 0 <;> by_cases hn : n = 0 <;> simp [pyValueChange, ho, hn]
  · intro o n ho hn
    simp [pyValueChange, ho, hn]
  · intro now db sc ls snap h
    obtain ⟨ov, ob, orr, od, oa, hv, _, _, _, _, hsnap⟩ := createSnapshot_ok_inv h
    exact ⟨ov, hv, by rw [hsnap]; rfl⟩

/-- The snapshot the engine builds for `itemA`/`scA` with no prior snapshot. -/
def snapA0 : Snapshot :=
  snapshotOf 0 itemA scA none (some 100) (some false) (some 1)
    (some "2025-01-15T13:00:00+00:00") (some true)

/-- Witness for `c2_value_change_amended` at concrete inputs. -/
theorem c2_value_change_amended_witness :
    pyValueChange (some 100) (some 95) = some (95 - 100) ∧
    (∃ old, baselineValue itemA none = Except.ok old ∧
      snapA0.value_change = pyValueChange old scA.value) :=
  ⟨c2_value_change_amended.2.1 100 95 (by decide) (by decide),
   c2_value_change_amended.2.2 0 itemA scA none snapA0 rfl⟩

/-! ### Claim C3 -/

/-- A last-snapshot row whose `current_value` KEY is absent (outer `none`),
every other field present. -/
def snapNoVal : LastSnap :=
  { current_value := none
    has_bid := some (some false)
    auction_round := some (some 1)
    auction_date := some (some "2025-01-15T13:00:00+00:00")
    is_active := some (some true)
    snapshot_at := some (some "2025-01-14T13:00:00+00:00") }

/-- A last-snapshot row with every field present. -/
def snapB : LastSnap :=
  { current_value := some (some 100)
    has_bid := some (some false)
    auction_round := some (some 1)
    auction_date := some (some "2025-01-15T13:00:00+00:00")
    is_active := some (some true)
    snapshot_at := some (some "2025-01-14T13:00:00+00:00") }

/-- Claim C3, counterexample: when `current_value` is absent from the last
snapshot record, the code does NOT fall back to the stored item's field (here
present, `100`): `last_snap['current_value']` raises, the whole snapshot
creation fails, and no snapshot is produced at all. -/
theorem c3_baseline_counterexample :
    itemA.value = some (some 100) ∧
    snapNoVal.current_value = none ∧
    createSnapshot 0 itemA scA (some snapNoVal) = Except.error () := by
  refine ⟨rfl, rfl, rfl⟩

/-- Claim C3 (amended): when a prior snapshot exists, every baseline field is
taken from it with no per-field fallback — the stored item's mutable fields
are irrelevant (part 1); if one of the five keys is absent from the snapshot
record, snapshot creation fails instead of falling back (part 2, shown for
`current_value`); when no prior snapshot exists, every baseline field comes
from the stored item via `.get` (with defaults `False` for `has_bid` and
`True` for `is_active` only when the key is absent) (part 3). -/
theorem c3_baseline_amended :
    (∀ (now : Int) (db db' : DbItem) (sc : ScrapedItem) (ls : LastSnap),
      ls.current_value.isSome → ls.has_bid.isSome → ls.auction_round.isSome →
      ls.auction_date.isSome → ls.is_active.isSome →
      db.id = db'.id → db.external_id = db'.external_id →
      db.category = db'.category → db.city = db'.city →
      db.state = db'.state → db.auction_type = db'.auction_type →
      createSnapshot now db sc (some ls) = createSnapshot now db' sc (some ls)) ∧
    (∀ (now : Int) (db : DbItem) (sc : ScrapedItem) (ls : LastSnap),
      ls.current_value = none →
      createSnapshot now db sc (some ls) = Except.error ()) ∧
    (∀ (now : Int) (db : DbItem) (sc : ScrapedItem),
      createSnapshot now db sc none =
        Except.ok (snapshotOf now db sc none (pyGet db.value)
          (pyGetD db.has_bid false) (pyGet db.auction_round)
          (pyGet db.auction_date) (pyGetD db.is_active true))) := by
  refine ⟨?_, ?_, ?_⟩
  · intro now db db' sc ls h1 h2 h3 h4 h5 e1 e2 e3 e4 e5 e6
    obtain ⟨v1, hv1⟩ := Option.isSome_iff_exists.mp h1
    obtain ⟨v2, hv2⟩ := Option.isSome_iff_exists.mp h2
    obtain ⟨v3, hv3⟩ := Option.isSome_iff_exists.mp h3
    obtain ⟨v4, hv4⟩ := Option.isSome_iff_exists.mp h4
    obtain ⟨v5, hv5⟩ := Option.isSome_iff_exists.mp h5
    have b1 : ∀ d : DbItem, baselineValue d (some ls) = Except.ok v1 := by
      intro d; simp [baselineValue, hv1, req]
    have b2 : ∀ d : DbItem, baselineHasBid d (some ls) = Except.ok v2 := by
      intro d; simp [baselineHasBid, hv2, req]
    have b3 : ∀ d : DbItem, baselineRound d (some ls) = Except.ok v3 := by
      intro d; simp [baselineRound, hv3, req]
    have b4 : ∀ d : DbItem, baselineAuctionDate d (some ls) = Except.ok v4 := by
      intro d; simp [baselineAuctionDate, hv4, req]
    have b5 : ∀ d : DbItem, baselineIsActive d (some ls) = Except.ok v5 := by
      intro d; simp [baselineIsActive, hv5, req]
    rw [createSnapshot_eq_ok now db sc (some ls) v1 v2 v3 v4 v5
        (b1 db) (b2 db) (b3 db) (b4 db) (b5 db),
      createSnapshot_eq_ok now db' sc (some ls) v1 v2 v3 v4 v5
        (b1 db') (b2 db') (b3 db') (b4 db') (b5 db')]
    simp [snapshotOf, e1, e2, e3, e4, e5, e6]
  · intro now db sc ls h
    simp [createSnapshot, baselineValue, h, req, bind, Except.bind]
  · intro now db sc
    exact createSnapshot_eq_ok now db sc none (pyGet db.value)
      (pyGetD db.has_bid false) (pyGet db.auction_round)
      (pyGet db.auction_date) (pyGetD db.is_active true) rfl rfl rfl rfl rfl

/-- Witness for `c3_baseline_amended` at concrete inputs. -/
theorem c3_baseline_amended_witness :
    createSnapshot 0 itemA scA (some snapB) =
      createSnapshot 0 { itemA with value := some (some 55) } scA (some snapB) ∧
    createSnapshot 0 itemA scA (some snapNoVal) = Except.error () :=
  ⟨c3_baseline_amended.1 0 itemA { itemA with value := some (some 55) } scA snapB
      (by decide) (by decide) (by decide) (by decide) (by decide)
      rfl rfl rfl rfl rfl rfl,
   c3_baseline_amended.2.1 0 itemA scA snapNoVal rfl⟩

/-! ### Claim C4 -/

/-- A run clock exactly 24 hours after `snapB`'s `snapshot_at`. -/
def c4Now : Int := (isoToSeconds "2025-01-14T13:00:00+00:00").getD 0 + 86400

/-- Claim C4, counterexample: with a present zero `value_change` (baseline
`100`, scraped `100`) and `hours_since_last_snapshot = 24 > 0`, the code
yields a null `value_velocity` instead of the claimed
`value_change / hours = 0`, because `if value_change and ...:` treats the
present `0` as falsy. -/
theorem c4_velocity_counterexample :
    (createSnapshot c4Now itemA scA (some snapB)).toOption.map
        (fun s => (s.value_change, s.hours_since_last_snapshot, s.value_velocity))
      = some (some 0, some 24, none) ∧
    (0 : ℚ) / 24 = 0 := by
  have hok := createSnapshot_eq_ok c4Now itemA scA (some snapB) (some 100)
    (some false) (some 1) (some "2025-01-15T13:00:00+00:00") (some true)
    rfl rfl rfl rfl rfl
  have hvc : pyValueChange (some 100) scA.value = some 0 := by
    show pyValueChange (some 100) (some 100) = some 0
    simp only [pyValueChange]
    norm_num
  have hhr : hoursSinceLast c4Now (some snapB) = some 24 := by
    show (if ("2025-01-14T13:00:00+00:00" : String) = "" then none
      else (isoToSeconds "2025-01-14T13:00:00+00:00").map
        (fun t => ((c4Now - t : Int) : ℚ) / 3600)) = some 24
    have hiso : isoToSeconds "2025-01-14T13:00:00+00:00" = some 1736859600 := rfl
    have hne : ("2025-01-14T13:00:00+00:00" : String) ≠ "" := by decide
    rw [if_neg hne, hiso]
    show some (((c4Now - 1736859600 : Int) : ℚ) / 3600) = some 24
    have hc : c4Now = 1736946000 := rfl
    rw [hc]
    norm_num
  refine ⟨?_, by norm_num⟩
  rw [hok]
  show some ((snapshotOf c4Now itemA scA (some snapB) (some 100) (some false)
    (some 1) (some "2025-01-15T13:00:00+00:00") (some true)).value_change,
    (snapshotOf c4Now itemA scA (some snapB) (some 100) (some false)
    (some 1) (some "2025-01-15T13:00:00+00:00") (some true)).hours_since_last_snapshot,
    (snapshotOf c4Now itemA scA (some snapB) (some 100) (some false)
    (some 1) (some "2025-01-15T13:00:00+00:00") (some true)).value_velocity) = _
  show some (pyValueChange (some 100) scA.value, hoursSinceLast c4Now (some snapB),
    pyValueVelocity (pyValueChange (some 100) scA.value)
      (hoursSinceLast c4Now (some snapB))) = _
  rw [hvc, hhr]
  simp [pyValueVelocity]

/-- Claim C4 (amended): `value_velocity = value_change / hours` only when
`value_change` is present AND nonzero and `hours_since_last_snapshot` is
present and `> 0`; it is null otherwise — in particular null whenever
`hours` is null or `≤ 0`, and also null when `value_change` is a present
`0`. -/
theorem c4_velocity_amended :
    (∀ vc h : Option ℚ, pyValueVelocity vc h =
      match vc, h with
      | some v, some hh => if v ≠ 0 ∧ 0 < hh then some (v / hh) else none
      | _, _ => none) ∧
    (∀ vc : Option ℚ, pyValueVelocity vc none = none) ∧
    (∀ (vc : Option ℚ) (h : ℚ), h ≤ 0 → pyValueVelocity vc (some h) = none) ∧
    (∀ h : Option ℚ, pyValueVelocity (some 0) h = none) ∧
    (∀ (now : Int) (db : DbItem) (sc : ScrapedItem) (ls : Option LastSnap)
      (snap : Snapshot), createSnapshot now db sc ls = Except.ok snap →
      snap.value_velocity =
        pyValueVelocity snap.value_change snap.hours_since_last_snapshot) := by
  refine ⟨?_, ?_, ?_, ?_, ?_⟩
  · intro vc h
    match vc, h with
    | none, none => rfl
    | none, some hh => rfl
    | some v, none => rfl
    | some v, some hh =>
      simp only [pyValueVelocity]
      by_cases hv : v = 0
      · simp [hv]
      · by_cases hpos : 0 < hh
        · simp [hv, hpos, ne_of_gt hpos]
        · simp [hv, hpos]
  · intro vc; cases vc <;> rfl
  · intro vc h hle
    have hnot : ¬ (0 : ℚ) < h := not_lt.mpr hle
    cases vc with
    | none => rfl
    | some v => simp [pyValueVelocity, hnot]
  · intro h; cases h <;> simp [pyValueVelocity]
  · intro now db sc ls snap h
    obtain ⟨ov, ob, orr, od, oa, _, _, _, _, _, hsnap⟩ := createSnapshot_ok_inv h
    rw [hsnap]; rfl

/-- Witness for `c4_velocity_amended` at concrete inputs. -/
theorem c4_velocity_amended_witness :
    pyValueVelocity (some 5) (some (-2)) = none ∧
    snapA0.value_velocity =
      pyValueVelocity snapA0.value_change snapA0.hours_since_last_snapshot :=
  ⟨c4_velocity_amended.2.2.1 (some 5) (-2) (by decide),
   c4_velocity_amended.2.2.2.2 0 itemA scA none snapA0 rfl⟩

/-! ### Claim C6 -/

/-- A scraped listing whose auction date renders the same instant as
`itemA`'s stored date, but with the Brazilian `-03:00` offset. -/
def scDate : ScrapedItem := { scA with auction_date := some "2025-01-15T10:00:00-03:00" }

/-- Claim C6, counterexample: the scraped date (as produced by
`convert_brazilian_datetime_to_postgres`) and the baseline date denote the
same instant — both parse to the same epoch second — yet
`auction_date_changed` is `true`, because line 503 compares the raw strings.
The claim's "two representations of the same instant must not be flagged"
is therefore false. -/
theorem c6_auction_date_counterexample :
    convertBrazilianDatetimeToPostgres "15/01/2025 às 10:00"
      = some "2025-01-15T10:00:00-03:00" ∧
    isoToSeconds "2025-01-15T10:00:00-03:00" = some 1736946000 ∧
    isoToSeconds "2025-01-15T13:00:00+00:00" = some 1736946000 ∧
    pyGet itemA.auction_date = some "2025-01-15T13:00:00+00:00" ∧
    (createSnapshot 0 itemA scDate none).toOption.map
      (fun s => s.auction_date_changed) = some true := by
  refine ⟨by decide, rfl, rfl, rfl, by decide⟩

/-- Claim C6 (amended): `auction_date_changed` is a plain string inequality
between the scraped ISO string and the baseline ISO string — no instant
normalization is performed, so two representations of the same instant ARE
flagged as changed. -/
theorem c6_auction_date_amended :
    ∀ (now : Int) (db : DbItem) (sc : ScrapedItem) (ls : Option LastSnap)
      (snap : Snapshot), createSnapshot now db sc ls = Except.ok snap →
      ∃ old, baselineAuctionDate db ls = Except.ok old ∧
        snap.auction_date_changed = decide (sc.auction_date ≠ old) := by
  intro now db sc ls snap h
  obtain ⟨ov, ob, orr, od, oa, _, _, _, hd, _, hsnap⟩ := createSnapshot_ok_inv h
  exact ⟨od, hd, by rw [hsnap]; rfl⟩

/-- Witness for `c6_auction_date_amended` at concrete inputs. -/
theorem c6_auction_date_amended_witness :
    ∃ old, baselineAuctionDate itemA none = Except.ok old ∧
      snapA0.auction_date_changed = decide (scA.auction_date ≠ old) :=
  c6_auction_date_amended 0 itemA scA none snapA0 rfl

/-! ### Claim C7 -/

/-- A scraped listing with a present-but-zero current value and a positive
first-round value. -/
def scZeroVal : ScrapedItem :=
  { scA with value := some 0, first_round_value := some 10000 }

/-- Claim C7, counterexample: in the reconciliation path, with
`first_round_value = 10000 > 0` and `current_value` present (equal to `0`),
the code produces a null `discount_from_first_round` instead of the claimed
`(10000 - 0) / 10000 * 100 = 100`, because the truthiness guard
`if scraped_item.get('first_round_value') and new_value:` rejects a present
zero. -/
theorem c7_discount_counterexample :
    scZeroVal.first_round_value = some 10000 ∧
    scZeroVal.value = some 0 ∧
    (createSnapshot 0 itemA scZeroVal none).toOption.map
      (fun s => s.discount_from_first_round) = some none ∧
    ((10000 : ℚ) - 0) / 10000 * 100 = 100 := by
  refine ⟨rfl, rfl, by decide, by norm_num⟩

/-- Claim C7 (amended): the reconciliation discount is computed whenever
`first_round_value > 0` and `current_value` is present AND NONZERO, with no
dependence on the auction round; the scrape-time discount has the same
truthiness guards but is additionally gated on `auction_round == 2` (and
rounded to two decimals) — the round-gating asymmetry between the two paths
holds as claimed, while a present zero `current_value` yields null in both. -/
theorem c7_discount_amended :
    (∀ f n : ℚ, pyDiscountFromFirstRound (some f) (some n) =
      if 0 < f ∧ n ≠ 0 then some ((f - n) / f * 100) else none) ∧
    (∀ n : Option ℚ, pyDiscountFromFirstRound none n = none) ∧
    (∀ f : Option ℚ, pyDiscountFromFirstRound f none = none) ∧
    (∀ (now : Int) (db : DbItem) (sc : ScrapedItem) (ls : Option LastSnap)
      (snap : Snapshot), createSnapshot now db sc ls = Except.ok snap →
      snap.discount_from_first_round =
        pyDiscountFromFirstRound sc.first_round_value sc.value) ∧
    (∀ (f c : Option ℚ) (r : Option Int), r ≠ some 2 → scrapeDiscount f c r = none) ∧
    (∀ f c : ℚ, 0 < f → c ≠ 0 → scrapeDiscount (some f) (some c) (some 2) =
      some (roundTo2 ((f - c) / f * 100))) := by
  refine ⟨?_, ?_, ?_, ?_, ?_, ?_⟩
  · intro f n
    simp only [pyDiscountFromFirstRound]
    by_cases hf : f = 0
    · simp [hf]
    · by_cases hn : n = 0
      · simp [hf, hn]
      · by_cases hpos : 0 < f
        · simp [hf, hn, hpos]
        · simp [hf, hn, hpos]
  · intro n; cases n <;> rfl
  · intro f; cases f <;> rfl
  · intro now db sc ls snap h
    obtain ⟨ov, ob, orr, od, oa, _, _, _, _, _, hsnap⟩ := createSnapshot_ok_inv h
    rw [hsnap]; rfl
  · intro f c r hr
    cases f with
    | none => rfl
    | some fv =>
      cases c with
      | none => rfl
      | some cv => simp [scrapeDiscount, hr]
  · intro f c h0 hc
    simp [scrapeDiscount, ne_of_gt h0, hc]

/-- Witness for `c7_discount_amended` at concrete inputs (the spec's own
scenario `first_round_value = 10000`, `current_value = 8000`). -/
theorem c7_discount_amended_witness :
    pyDiscountFromFirstRound (some 10000) (some 8000) =
      (if (0 : ℚ) < 10000 ∧ (8000 : ℚ) ≠ 0
        then some (((10000 : ℚ) - 8000) / 10000 * 100) else none) ∧
    scrapeDiscount (some 10000) (some 8000) (some 1) = none ∧
    scrapeDiscount (some 10000) (some 8000) (some 2) =
      some (roundTo2 (((10000 : ℚ) - 8000) / 10000 * 100)) ∧
    snapA0.discount_from_first_round =
      pyDiscountFromFirstRound scA.first_round_value scA.value :=
  ⟨c7_discount_amended.1 10000 8000,
   c7_discount_amended.2.2.2.2.1 (some 10000) (some 8000) (some 1) (by decide),
   c7_discount_amended.2.2.2.2.2 10000 8000 (by decide) (by decide),
   c7_discount_amended.2.2.2.1 0 itemA scA none snapA0 rfl⟩

/-! ### Claims C8 and C10: orchestrator step behaviour -/

/-- Every update the per-item update loop reports as applied was in its input
batch. -/
theorem updateGo_applied_mem (fails : Nat → Bool) :
    ∀ (ups : List BaseUpdate) (i : Nat) (st : Stats) (u : BaseUpdate),
      u ∈ (updateBaseItemsBatchGo fails ups i st).2 → u ∈ ups := by
  intro ups
  induction ups with
  | nil => intro i st u hu; simp [updateBaseItemsBatchGo] at hu
  | cons v us ih =>
    intro i st u hu
    by_cases hf : fails i
    · simp only [updateBaseItemsBatchGo, hf, if_true] at hu
      exact List.mem_cons_of_mem _ (ih (i + 1) _ u hu)
    · simp only [updateBaseItemsBatchGo, hf, if_false] at hu
      rcases List.mem_cons.mp hu with h | h
      · exact h ▸ List.mem_cons_self _ _
      · exact List.mem_cons_of_mem _ (ih (i + 1) _ u h)

/-- Every update accumulated by the match loop either was there initially or
was built by `createUpdate` for a matched listing. -/
theorem foldl_updates_mem (now : Int) (dbIndex : String → Option DbItem)
    (lastSnaps : Nat → Option LastSnap) :
    ∀ (scraped : List ScrapedItem) (s0 : ProcState) (u : BaseUpdate),
      u ∈ (scraped.foldl (processOne now dbIndex lastSnaps) s0).updates →
      u ∈ s0.updates ∨ ∃ sc, sc ∈ scraped ∧ ∃ it, dbIndex sc.link = some it ∧
        u = createUpdate now it sc := by
  intro scraped
  induction scraped with
  | nil => intro s0 u hu; exact Or.inl hu
  | cons sc rest ih =>
    intro s0 u hu
    rcases ih (processOne now dbIndex lastSnaps s0 sc) u hu with h1 | ⟨sc', hmem, it, hit, hu'⟩
    · cases hidx : dbIndex sc.link with
      | none =>
        simp only [processOne, hidx] at h1
        exact Or.inl h1
      | some db =>
        cases hcs : createSnapshot now db sc (lastSnaps db.id) with
        | error e =>
          simp only [processOne, hidx, hcs] at h1
          rcases List.mem_append.mp h1 with h2 | h2
          · exact Or.inl h2
          · right
            exact ⟨sc, List.mem_cons_self _ _, db, hidx, by simpa using h2⟩
        | ok snap =>
          simp only [processOne, hidx, hcs] at h1
          rcases List.mem_append.mp h1 with h2 | h2
          · exact Or.inl h2
          · right
            exact ⟨sc, List.mem_cons_self _ _, db, hidx, by simpa using h2⟩
    · exact Or.inr ⟨sc', List.mem_cons_of_mem _ hmem, it, hit, hu'⟩

/-- Claim C8: a scraped listing whose normalized key is not in the
stored-item index only increments `items_new` — `items_matched`, both output
batches and every other statistic are untouched (part 1); and every update
the full pass applies targets the id of a stored item matched by some scraped
listing's key, so the engine never creates base rows for unmatched listings
(part 2). -/
theorem c8_unmatched :
    (∀ (now : Int) (dbIndex : String → Option DbItem)
      (lastSnaps : Nat → Option LastSnap) (st : ProcState) (sc : ScrapedItem),
      dbIndex sc.link = none →
      processOne now dbIndex lastSnaps st sc =
        { st with stats := { st.stats with items_new := st.stats.items_new + 1 } }) ∧
    (∀ (now : Int) (dbIndex : String → Option DbItem)
      (lastSnaps : Nat → Option LastSnap) (insertFails updateFails : Nat → Bool)
      (scraped : List ScrapedItem) (st0 : Stats) (u : BaseUpdate),
      u ∈ (processMatchesAndSnapshots now dbIndex lastSnaps insertFails updateFails
        scraped st0).applied →
      ∃ sc, sc ∈ scraped ∧ ∃ it, dbIndex sc.link = some it ∧ u.id = it.id) := by
  constructor
  · intro now dbIndex lastSnaps st sc h
    simp [processOne, h]
  · intro now dbIndex lastSnaps insertFails updateFails scraped st0 u hu
    simp only [processMatchesAndSnapshots] at hu
    by_cases hemp : (scraped.foldl (processOne now dbIndex lastSnaps) ⟨st0, [], []⟩).updates.isEmpty
    · simp only [hemp, if_true] at hu
      simp at hu
    · simp only [hemp, if_false] at hu
      have h2 := updateGo_applied_mem updateFails _ 0 _ u hu
      rcases foldl_updates_mem now dbIndex lastSnaps scraped ⟨st0, [], []⟩ u h2 with h3 | ⟨sc, hsc, it, hit, hcu⟩
      · simp at h3
      · exact ⟨sc, hsc, it, hit, by rw [hcu]; rfl⟩

/-- A scraped listing carrying no numeric values (keeps concrete pipeline
evaluations free of rational arithmetic). -/
def scN : ScrapedItem := { scA with value := none, auction_date := none }

/-- Witness for `c8_unmatched` at concrete inputs. -/
theorem c8_unmatched_witness :
    processOne 0 (fun _ => none) (fun _ => none) ⟨initStats, [], []⟩ scA =
      { (⟨initStats, [], []⟩ : ProcState) with
        stats := { initStats with items_new := initStats.items_new + 1 } } ∧
    (∃ sc, sc ∈ [scN] ∧ ∃ it, (fun _ => some itemA : String → Option DbItem) sc.link = some it ∧
      (createUpdate 0 itemA scN).id = it.id) :=
  ⟨c8_unmatched.1 0 (fun _ => none) (fun _ => none) ⟨initStats, [], []⟩ scA rfl,
   c8_unmatched.2 0 (fun _ => some itemA) (fun _ => none) (fun _ => false)
     (fun _ => false) [scN] initStats (createUpdate 0 itemA scN) (by decide)⟩

/-- Claim C10: on a matched listing whose snapshot creation fails internally,
the orchestrator still completes the step — `items_matched` and `errors` are
each incremented, no snapshot is appended, and the base-record update payload
IS still appended, so a matched item can get a base update without a snapshot
for that run. -/
theorem c10_snapshot_failure_isolated :
    ∀ (now : Int) (dbIndex : String → Option DbItem)
      (lastSnaps : Nat → Option LastSnap) (st : ProcState) (sc : ScrapedItem)
      (db : DbItem), dbIndex sc.link = some db →
      createSnapshot now db sc (lastSnaps db.id) = Except.error () →
      processOne now dbIndex lastSnaps st sc =
        { st with
          stats := { st.stats with
            items_matched := st.stats.items_matched + 1
            errors := st.stats.errors + 1 }
          updates := st.updates ++ [createUpdate now db sc] } := by
  intro now dbIndex lastSnaps st sc db h1 h2
  simp [processOne, h1, h2]

/-- Witness for `c10_snapshot_failure_isolated` at concrete inputs (a last
snapshot whose `current_value` key is absent makes creation fail). -/
theorem c10_snapshot_failure_isolated_witness :
    processOne 0 (fun _ => some itemA) (fun _ => some snapNoVal)
        ⟨initStats, [], []⟩ scA =
      { (⟨initStats, [], []⟩ : ProcState) with
        stats := { initStats with
          items_matched := initStats.items_matched + 1
          errors := initStats.errors + 1 }
        updates := [] ++ [createUpdate 0 itemA scA] } :=
  c10_snapshot_failure_isolated 0 (fun _ => some itemA) (fun _ => some snapNoVal)
    ⟨initStats, [], []⟩ scA itemA rfl rfl

/-! ### Claim C1: chunked snapshot insert -/

theorem chunkListFuel_join : ∀ (fuel : Nat) (l : List Snapshot),
    l.length ≤ fuel → (chunkListFuel fuel l).flatten = l := by
  intro fuel
  induction fuel with
  | zero =>
    intro l h
    have hl : l = [] := List.eq_nil_of_length_eq_zero (Nat.le_zero.mp h)
    subst hl; rfl
  | succ n ih =>
    intro l h
    cases l with
    | nil => rfl
    | cons x xs =>
      simp only [chunkListFuel, List.flatten]
      rw [ih ((x :: xs).drop 500) ?_]
      · exact List.take_append_drop 500 (x :: xs)
      · have hd : ((x :: xs).drop 500).length = (x :: xs).length - 500 :=
          List.length_drop 500 (x :: xs)
        simp only [List.length_cons] at h hd
        omega

theorem chunkListFuel_length_le : ∀ (fuel : Nat) (l : List Snapshot),
    l.length ≤ fuel → ∀ c ∈ chunkListFuel fuel l, c.length ≤ 500 := by
  intro fuel
  induction fuel with
  | zero =>
    intro l h c hc
    have hl : l = [] := List.eq_nil_of_length_eq_zero (Nat.le_zero.mp h)
    subst hl; simp [chunkListFuel] at hc
  | succ n ih =>
    intro l h c hc
    cases l with
    | nil => simp [chunkListFuel] at hc
    | cons x xs =>
      simp only [chunkListFuel] at hc
      rcases List.mem_cons.mp hc with h1 | h1
      · rw [h1]
        have := List.length_take 500 (x :: xs)
        simp [this]
      · refine ih ((x :: xs).drop 500) ?_ c h1
        have hd : ((x :: xs).drop 500).length = (x :: xs).length - 500 :=
          List.length_drop 500 (x :: xs)
        simp only [List.length_cons] at h hd
        omega

/-- The chunk slices reassemble to the original batch. -/
theorem chunkList_join (l : List Snapshot) : (chunkList l).flatten = l :=
  chunkListFuel_join l.length l (Nat.le_refl _)

/-- Every chunk holds at most 500 records. -/
theorem chunkList_length_le (l : List Snapshot) :
    ∀ c ∈ chunkList l, c.length ≤ 500 :=
  chunkListFuel_length_le l.length l (Nat.le_refl _)

/-- When no chunk's insert call fails, the loop issues one call per chunk and
inserts everything. -/
theorem insertChunksGo_ok (fails : Nat → Bool) :
    ∀ (cs : List (List Snapshot)) (i : Nat),
      (∀ k, k < cs.length → fails (i + k) = false) →
      insertChunksGo fails cs i = (cs.flatten, cs.length, false) := by
  intro cs
  induction cs with
  | nil => intro i h; rfl
  | cons c rest ih =>
    intro i h
    have h0 : fails i = false := by simpa using h 0 (by simp)
    simp only [insertChunksGo, h0, Bool.false_eq_true, if_false]
    rw [ih (i + 1) ?_]
    · simp [List.flatten]
    · intro k hk
      have heq : i + 1 + k = i + (k + 1) := by omega
      rw [heq]
      exact h (k + 1) (by simpa using Nat.succ_lt_succ hk)

/-- The first failing chunk aborts the loop: the chunks before it are
inserted, the failing call is the last one issued, and nothing after it is
attempted. -/
theorem insertChunksGo_fail (fails : Nat → Bool) :
    ∀ (cs : List (List Snapshot)) (i j : Nat),
      j < cs.length → fails (i + j) = true → (∀ k, k < j → fails (i + k) = false) →
      insertChunksGo fails cs i = ((cs.take j).flatten, j + 1, true) := by
  intro cs
  induction cs with
  | nil => intro i j hj; simp at hj
  | cons c rest ih =>
    intro i j hj hfail hbefore
    cases j with
    | zero =>
      have h0 : fails i = true := by simpa using hfail
      simp [insertChunksGo, h0]
    | succ k =>
      have h0 : fails i = false := by simpa using hbefore 0 (Nat.succ_pos k)
      simp only [insertChunksGo, h0, Bool.false_eq_true, if_false]
      rw [ih (i + 1) k ?_ ?_ ?_]
      · simp [List.flatten]
      · exact Nat.lt_of_succ_lt_succ (by simpa using hj)
      · have heq : i + 1 + k = i + (k + 1) := by omega
        rw [heq]; exact hfail
      · intro k2 hk2
        have heq : i + 1 + k2 = i + (k2 + 1) := by omega
        rw [heq]
        exact hbefore (k2 + 1) (Nat.succ_lt_succ hk2)

/-- The per-kind change counters never touch `snapshots_created` or
`errors`. -/
theorem snapshotCounters_preserved (st : Stats) (snap : Snapshot) :
    (snapshotCounters st snap).snapshots_created = st.snapshots_created ∧
    (snapshotCounters st snap).errors = st.errors := by
  simp only [snapshotCounters]
  split <;> split <;> split <;> simp

/-- One orchestrator step changes `snapshots_created` by exactly the number
of snapshots it appends. -/
theorem processOne_created (now : Int) (dbIndex : String → Option DbItem)
    (lastSnaps : Nat → Option LastSnap) (st : ProcState) (sc : ScrapedItem) :
    (processOne now dbIndex lastSnaps st sc).stats.snapshots_created
        + st.snapshots.length =
      st.stats.snapshots_created
        + (processOne now dbIndex lastSnaps st sc).snapshots.length := by
  cases hidx : dbIndex sc.link with
  | none => simp [processOne, hidx]
  | some db =>
    cases hcs : createSnapshot now db sc (lastSnaps db.id) with
    | error e => simp [processOne, hidx, hcs]
    | ok snap =>
      have hp := (snapshotCounters_preserved
        { { st.stats with items_matched := st.stats.items_matched + 1 } with
          snapshots_created := st.stats.snapshots_created + 1 } snap).1
      simp [processOne, hidx, hcs, hp, List.length_append]
      omega

/-- Across the whole match loop, `snapshots_created` counts exactly the
snapshots placed into the batch — before any insert is attempted. -/
theorem foldl_created (now : Int) (dbIndex : String → Option DbItem)
    (lastSnaps : Nat → Option LastSnap) :
    ∀ (scraped : List ScrapedItem) (s0 : ProcState),
      (scraped.foldl (processOne now dbIndex lastSnaps) s0).stats.snapshots_created
          + s0.snapshots.length =
        s0.stats.snapshots_created
          + (scraped.foldl (processOne now dbIndex lastSnaps) s0).snapshots.length := by
  intro scraped
  induction scraped with
  | nil => intro s0; rfl
  | cons sc rest ih =>
    intro s0
    have h1 := processOne_created now dbIndex lastSnaps s0 sc
    have h2 := ih (processOne now dbIndex lastSnaps s0 sc)
    simp only [List.foldl_cons] at h2 ⊢
    omega

/-- Claim C1 (amended): the batch is cut into chunks of at most 500 records
that reassemble to the whole batch (parts 1-2), and one bulk call is issued
per chunk while all succeed (part 3); but the single `try` of
`_insert_snapshots_batch` wraps the WHOLE loop, so the first failing chunk
ends the run's inserting: earlier chunks stay inserted (no rollback), later
chunks are never attempted, and `errors` grows by the FULL batch length
(part 4); the insert phase never touches `snapshots_created` (part 5), which
was already set during processing to the number of snapshots built,
regardless of insert success (part 6). -/
theorem c1_insert_batch_amended :
    (∀ (snaps : List Snapshot), ∀ c ∈ chunkList snaps, c.length ≤ 500) ∧
    (∀ snaps : List Snapshot, (chunkList snaps).flatten = snaps) ∧
    (∀ (fails : Nat → Bool) (snaps : List Snapshot) (st : Stats),
      (∀ k, k < (chunkList snaps).length → fails k = false) →
      insertSnapshotsBatch fails snaps st = (snaps, (chunkList snaps).length, st)) ∧
    (∀ (fails : Nat → Bool) (snaps : List Snapshot) (st : Stats) (j : Nat),
      j < (chunkList snaps).length → fails j = true →
      (∀ k, k < j → fails k = false) →
      insertSnapshotsBatch fails snaps st =
        (((chunkList snaps).take j).flatten, j + 1,
          { st with errors := st.errors + snaps.length })) ∧
    (∀ (fails : Nat → Bool) (snaps : List Snapshot) (st : Stats),
      ((insertSnapshotsBatch fails snaps st).2.2).snapshots_created
        = st.snapshots_created) ∧
    (∀ (now : Int) (dbIndex : String → Option DbItem)
      (lastSnaps : Nat → Option LastSnap) (scraped : List ScrapedItem) (st0 : Stats),
      (scraped.foldl (processOne now dbIndex lastSnaps)
          ⟨st0, [], []⟩).stats.snapshots_created =
        st0.snapshots_created +
          (scraped.foldl (processOne now dbIndex lastSnaps)
            ⟨st0, [], []⟩).snapshots.length) := by
  refine ⟨?_, chunkList_join, ?_, ?_, ?_, ?_⟩
  · intro snaps c hc; exact chunkList_length_le snaps c hc
  · intro fails snaps st h
    unfold insertSnapshotsBatch
    rw [insertChunksGo_ok fails (chunkList snaps) 0 (by simpa using h)]
    simp [chunkList_join]
  · intro fails snaps st j hj hfail hbefore
    unfold insertSnapshotsBatch
    rw [insertChunksGo_fail fails (chunkList snaps) 0 j hj (by simpa using hfail)
      (by simpa using hbefore)]
    simp
  · intro fails snaps st
    unfold insertSnapshotsBatch
    cases h : (insertChunksGo fails (chunkList snaps) 0).2.2 <;> simp [h]
  · intro now dbIndex lastSnaps scraped st0
    have := foldl_created now dbIndex lastSnaps scraped ⟨st0, [], []⟩
    simpa using this

/-- Witness for `c1_insert_batch_amended` at concrete inputs. -/
theorem c1_insert_batch_amended_witness :
    insertSnapshotsBatch (fun _ => true) [snapA0] initStats =
      (((chunkList [snapA0]).take 0).flatten, 0 + 1,
        { initStats with errors := initStats.errors + [snapA0].length }) ∧
    insertSnapshotsBatch (fun _ => false) [snapA0] initStats =
      ([snapA0], (chunkList [snapA0]).length, initStats) :=
  ⟨c1_insert_batch_amended.2.2.2.1 (fun _ => true) [snapA0] initStats 0
      (by decide) rfl (fun k hk => absurd hk (Nat.not_lt_zero k)),
   c1_insert_batch_amended.2.2.1 (fun _ => false) [snapA0] initStats
      (fun k _ => rfl)⟩

/-- The full pipeline run of the C1 counterexample: 501 matched listings,
first insert chunk failing. -/
def c1Run : RunResult :=
  processMatchesAndSnapshots 0 (fun _ => some itemA) (fun _ => none)
    (fun i => i == 0) (fun _ => false) (List.replicate 501 scN) initStats

set_option maxRecDepth 1000000 in
/-- Claim C1, counterexample: 501 snapshots are built (so two chunks of 500
and 1), the first chunk's insert fails — and then only ONE insert call is
ever issued: the remaining chunk is never attempted, nothing is inserted,
`errors` grows by the full 501, and the final `snapshots_created` statistic
is 501 (set at build time), not the 0 records actually inserted.  This
falsifies both "a failure of one chunk does not prevent the remaining chunks
from being attempted" and "`snapshots_created` counts exactly the records of
the successfully inserted chunks". -/
theorem c1_insert_batch_counterexample :
    c1Run.stats.snapshots_created = 501 ∧
    c1Run.inserted = [] ∧
    c1Run.attemptedChunks = 1 ∧
    c1Run.stats.errors = 501 := by
  refine ⟨by decide, by decide, by decide, by decide⟩

/-! ### Claim C9: failure isolation across the run -/

/-- Claim C9 (amended): only the stored-items load failure aborts the run —
`runMonitor` yields a statistics summary exactly when that load succeeds
(parts 1-2); a last-snapshot load failure is swallowed, leaving the run
identical to one with an empty snapshot index and in particular adding
nothing to `errors` (part 3); each per-item base-update failure is caught and
adds one to `errors` while the loop continues over the remaining items
(part 4); a chunk-insert failure is caught, adding the full batch length to
`errors` (part 5). -/
theorem c9_failure_isolation_amended :
    (∀ (o : Oracles) (now : Int) (rows : List DbItem)
      (snapRows : List (Nat × LastSnap)) (scraped : List ScrapedItem),
      (runMonitor o now rows snapRows scraped).toOption.isSome
        = !o.loadItemsFails) ∧
    (∀ (o : Oracles) (now : Int) (rows : List DbItem)
      (snapRows : List (Nat × LastSnap)) (scraped : List ScrapedItem),
      o.loadItemsFails = true →
      runMonitor o now rows snapRows scraped = Except.error ()) ∧
    (∀ (o : Oracles) (now : Int) (rows : List DbItem)
      (snapRows : List (Nat × LastSnap)) (scraped : List ScrapedItem),
      o.loadSnapsFails = true →
      runMonitor o now rows snapRows scraped = runMonitor o now rows [] scraped) ∧
    (∀ (fails : Nat → Bool) (ups : List BaseUpdate) (i : Nat) (st : Stats),
      (updateBaseItemsBatchGo fails ups i st).1.errors =
        st.errors + (List.range ups.length).countP (fun k => fails (i + k))) ∧
    (∀ (fails : Nat → Bool) (snaps : List Snapshot) (st : Stats),
      (insertSnapshotsBatch fails snaps st).2.2 = st ∨
      (insertSnapshotsBatch fails snaps st).2.2 =
        { st with errors := st.errors + snaps.length }) := by
  refine ⟨?_, ?_, ?_, ?_, ?_⟩
  · intro o now rows snapRows scraped
    cases h : o.loadItemsFails <;> simp [runMonitor, h, Except.toOption]
  · intro o now rows snapRows scraped h
    simp [runMonitor, h]
  · intro o now rows snapRows scraped h
    simp [runMonitor, h]
  · intro fails ups
    induction ups with
    | nil => intro i st; simp [updateBaseItemsBatchGo]
    | cons u us ih =>
      intro i st
      have hr : List.range (us.length + 1)
          = 0 :: (List.range us.length).map Nat.succ :=
        List.range_succ_eq_map us.length
      have hfeq : ((fun k => fails (i + k)) ∘ Nat.succ)
          = (fun k => fails (i + 1 + k)) := by
        funext k
        show fails (i + (k + 1)) = fails (i + 1 + k)
        congr 1
        omega
      by_cases hf : fails i
      · simp only [updateBaseItemsBatchGo, hf, if_true, List.length_cons, hr,
          List.countP_cons, List.countP_map, hfeq, ih]
        simp [hf]
        omega
      · simp only [updateBaseItemsBatchGo, hf, Bool.false_eq_true, if_false,
          List.length_cons, hr, List.countP_cons, List.countP_map, hfeq, ih]
        simp [hf]
  · intro fails snaps st
    unfold insertSnapshotsBatch
    cases h : (insertChunksGo fails (chunkList snaps) 0).2.2
    · left; simp [h]
    · right; simp [h]

/-- The run oracles of the C9 counterexample: the last-snapshot load fails,
everything else succeeds. -/
def c9Oracles : Oracles := ⟨false, true, fun _ => false, fun _ => false⟩

/-- The statistics the C9 counterexample run ends with. -/
def c9Stats : Stats :=
  { items_scraped := 1
    items_matched := 1
    items_new := 0
    snapshots_created := 1
    items_updated := 1
    bid_changes := 0
    value_changes := 0
    status_changes := 0
    pages_scraped := 0
    errors := 0 }

/-- Claim C9, counterexample: a run in which the last-snapshot index load
fails still completes with a statistics summary — but that failure is NOT
counted: `errors` ends at `0`, contradicting the claim that every non-fatal
failure "is caught and counted". -/
theorem c9_failure_isolation_counterexample :
    c9Oracles.loadSnapsFails = true ∧
    runMonitor c9Oracles 0 [itemA] [(1, snapB)] [scN] = Except.ok c9Stats ∧
    c9Stats.errors = 0 := by
  refine ⟨rfl, rfl, rfl⟩

/-- Witness for `c9_failure_isolation_amended` at concrete inputs. -/
theorem c9_failure_isolation_amended_witness :
    runMonitor ⟨true, false, fun _ => false, fun _ => false⟩ 0 [] [] []
      = Except.error () ∧
    runMonitor c9Oracles 0 [itemA] [(1, snapB)] [scN]
      = runMonitor c9Oracles 0 [itemA] [] [scN] :=
  ⟨c9_failure_isolation_amended.2.1 ⟨true, false, fun _ => false, fun _ => false⟩
      0 [] [] [] rfl,
   c9_failure_isolation_amended.2.2.1 c9Oracles 0 [itemA] [(1, snapB)] [scN] rfl⟩

end MegaMonitor
